import Mathlib

/-!
Verification development for the ai-vision-guide live-commentary pipeline.
The definitions below are a shallow embedding of the hook
src/hooks/useLiveCommentary.ts and of the audio-worklet PCM converter.
Times are modelled as rationals (seconds on the output audio clock,
milliseconds as naturals for wall-clock timestamps); JS numbers are
modelled as rationals, which agrees with the source on every comparison
and constant appearing in the claims.
-/

/-- JS String.prototype.toLowerCase, restricted to the ASCII range used by
all keyword and unit tokens in the source. -/
def lowerL (s : List Char) : List Char := s.map Char.toLower

/-- Whether the list starts with the given token (character-wise equality). -/
def startsWithL : List Char → List Char → Bool
  | [], _ => true
  | _ :: _, [] => false
  | a :: as, b :: bs => a = b && startsWithL as bs

/-- JS String.prototype.includes: the needle occurs as a contiguous
substring of the haystack. -/
def containsSubL (needle : List Char) : List Char → Bool
  | [] => startsWithL needle []
  | c :: rest => startsWithL needle (c :: rest) || containsSubL needle rest

/-- Whitespace class of the regex escape for spaces, over ASCII. -/
def isJsSpace (c : Char) : Bool :=
  c = ' ' || c = '\t' || c = '\n' || c = '\r' || c = '\x0b' || c = '\x0c'

/-- Word characters for the regex word-boundary assertion. -/
def isWordChar (c : Char) : Bool := c.isAlphanum || c = '_'

/-- A word boundary holds right before this suffix: either the end of the
text or a non-word character. -/
def wordBoundary : List Char → Bool
  | [] => true
  | c :: _ => !(isWordChar c)

/-- Numeric value of a decimal digit character. -/
def digitVal (c : Char) : Nat := c.toNat - ('0').toNat

/-- Natural number denoted by a digit sequence. -/
def natOfDigits (ds : List Char) : Nat :=
  ds.foldl (fun a c => 10 * a + digitVal c) 0

/-- Fractional value of digits after a decimal point. -/
def fracOfDigits (ds : List Char) : ℚ :=
  (natOfDigits ds : ℚ) / (10 : ℚ) ^ ds.length

/-- Match the numeric group digits, optional dot, digits at the head of
the text; returns the parsed value (JS parseFloat of the captured group,
exact for such literals) and the unconsumed suffix. Greedy matching is
equivalent to the backtracking engine here because a shortened numeric
capture is always followed by a digit or a dot, which can start neither
the whitespace class nor a unit token. -/
def matchNumberVal (s : List Char) : Option (ℚ × List Char) :=
  let d1 := s.takeWhile Char.isDigit
  let r1 := s.dropWhile Char.isDigit
  if d1.isEmpty then none
  else
    match r1 with
    | '.' :: r2 =>
        some ((natOfDigits d1 : ℚ) + fracOfDigits (r2.takeWhile Char.isDigit),
          r2.dropWhile Char.isDigit)
    | _ => some ((natOfDigits d1 : ℚ), r1)

/-- The meter unit alternation of the source regex: meter, metre, or a
bare m followed by a word boundary. -/
def unitMeterTok (s : List Char) : Bool :=
  startsWithL ("meter".data) s || startsWithL ("metre".data) s ||
    (match s with
     | 'm' :: rest => wordBoundary rest
     | _ => false)

/-- The feet unit alternation of the source regex: feet, foot, or ft
followed by a word boundary. -/
def unitFeetTok (s : List Char) : Bool :=
  startsWithL ("feet".data) s || startsWithL ("foot".data) s ||
    (match s with
     | 'f' :: 't' :: rest => wordBoundary rest
     | _ => false)

/-- Leftmost match of number, optional whitespace, unit token: the scan
the source performs with String.prototype.match. -/
def findUnitNumber (unit : List Char → Bool) : List Char → Option ℚ
  | [] => none
  | c :: rest =>
      match matchNumberVal (c :: rest) with
      | some (v, r1) =>
          if unit (r1.dropWhile isJsSpace) then some v else findUnitNumber unit rest
      | none => findUnitNumber unit rest

/-- The literal half-meter phrases recognised by the source. -/
def hasHalfPhrase (lower : List Char) : Bool :=
  containsSubL ("half meter".data) lower || containsSubL ("half metre".data) lower

/-- Occurrence of the keyword stop anywhere in the lowercased text. -/
def hasStopWord (lower : List Char) : Bool :=
  containsSubL ("stop".data) lower

/-- Four-tier urgency classification used by the hook. -/
inductive Urgency where
  | critical
  | high
  | medium
  | low
deriving DecidableEq

/-- One transcript entry: isUser speaker flag, text, timestamp (ms). -/
structure ChatMsg where
  isUser : Bool
  text : String
  timestamp : Nat
deriving DecidableEq

/-- Inbound session message, the fields of serverContent the hook reads:
the interrupted flag, the modelTurn role, the first text part, and the
duration (seconds) of the decoded inline audio part when present. -/
structure Message where
  interrupted : Bool
  modelTurnRole : Option String
  textPart : Option String
  audioDur : Option ℚ
deriving DecidableEq

/-- The mutable state of useLiveCommentary that the claims are about:
refs and React state cells, with the output AudioContext modelled by the
clock values passed to each operation. Active sources are tracked by the
chunk number that created them. -/
structure HookState where
  nextStartTime : ℚ
  isAudioPlaying : Bool
  activeSources : List Nat
  messageQueue : List Message
  lastUserSpeechTime : Nat
  isMicMuted : Bool
  isNavigationMode : Bool
  urgencyLevel : Urgency
  detectedDistance : Option ℚ
  commentaryStatus : String
  chatMessages : List ChatMsg
  isSessionReady : Bool
  audioChunkCounter : Nat
deriving DecidableEq

/-- FRAME_RATE constant: one frame every two seconds. -/
def FRAME_RATE : ℚ := 1 / 2

/-- AUDIO_BUFFER_GAP_MS constant. -/
def AUDIO_BUFFER_GAP_MS : ℚ := 80

/-- Safety margin in seconds, as computed in processMessageQueue. -/
def safetyMarginSeconds : ℚ := AUDIO_BUFFER_GAP_MS / 1000

/-- SPEECH_ENERGY_THRESHOLD constant. -/
def SPEECH_ENERGY_THRESHOLD : ℚ := 1 / 100

/-- SPEECH_COOLDOWN_MS constant. -/
def SPEECH_COOLDOWN_MS : Nat := 1000

/-- stopAndClearAudio: stop every active source (stop itself is wrapped
in try/catch in the source and never throws past it, so the operation is
total), clear the set, and drop the playing flag. -/
def stopAndClearAudio (st : HookState) : HookState :=
  { st with activeSources := [], isAudioPlaying := false }

/-- Keep the last n entries, as prev.slice(-n) does for n ≥ 0. -/
def takeLastN (n : Nat) (l : List ChatMsg) : List ChatMsg :=
  l.drop (l.length - n)

/-- Threshold chain of parseDistanceAndSetUrgency. -/
def urgencyForDistance (d : ℚ) : Urgency :=
  if d < 1 then Urgency.critical
  else if d < 2 then Urgency.high
  else if d < 3 then Urgency.medium
  else Urgency.low

/-- Distance extracted from the lowercased text: a meter match wins over
a feet match (feet converted at 0.3048), and the literal half-meter
phrase overrides both with exactly one half. -/
def parsedDistance (lower : List Char) : Option ℚ :=
  let d0 :=
    match findUnitNumber unitMeterTok lower with
    | some v => some v
    | none =>
        match findUnitNumber unitFeetTok lower with
        | some v => some (v * (3048 / 10000))
        | none => none
  if hasHalfPhrase lower then some (1 / 2) else d0

/-- parseDistanceAndSetUrgency: store the parsed distance, classify it by
the fixed thresholds when present, then force critical urgency whenever
the keyword stop occurs. Audio-feedback and haptic calls are external
collaborators with no state in this model. -/
def parseDistanceAndSetUrgency (st : HookState) (text : String) : HookState :=
  let lower := lowerL text.data
  let d1 := parsedDistance lower
  let st1 := { st with detectedDistance := d1 }
  let st2 :=
    match d1 with
    | some d => { st1 with urgencyLevel := urgencyForDistance d }
    | none => st1
  if hasStopWord lower then { st2 with urgencyLevel := Urgency.critical } else st2

/-- Mean of the squared normalised samples of a microphone frame. The
source compares sqrt of this mean against SPEECH_ENERGY_THRESHOLD; since
both sides are nonnegative and squaring is monotone there, the embedded
comparison below squares the threshold instead of taking the square
root. An empty frame gives 0/0 = 0 here and NaN in JS; both fail the
strict comparison, so the guard agrees. -/
def rmsSq (frame : List Int) : ℚ :=
  (frame.foldl (fun acc x => acc + ((x : ℚ) / 32768) ^ 2) 0) / (frame.length : ℚ)

/-- detectUserSpeech: on a frame whose energy is above threshold, while
AI audio is playing, past the cooldown window and with the microphone
unmuted, record the trigger time, stop and clear all audio, drop the
queued messages, reset the playback clock to the current output-clock
time (the output context is present whenever audio ever played), and
update the status text; otherwise leave the state untouched. -/
def detectUserSpeech (st : HookState) (frame : List Int) (now : Nat) (ct : ℚ) : HookState :=
  if rmsSq frame > SPEECH_ENERGY_THRESHOLD ^ 2 ∧ st.isAudioPlaying = true ∧
      now - st.lastUserSpeechTime > SPEECH_COOLDOWN_MS ∧ st.isMicMuted = false then
    { stopAndClearAudio st with
        lastUserSpeechTime := now,
        messageQueue := [],
        nextStartTime := ct,
        commentaryStatus := if st.isSessionReady then "Listening" else "Disconnected" }
  else st

/-- The three-branch start-time computation of processMessageQueue for an
audio chunk: first chunk after silence takes the max of the playback
clock and now plus the safety margin; a clock that already passed now is
a buffer underrun and is reset to now plus the safety margin; otherwise
the clock value is used as is. -/
def nextChunkStart (nst : ℚ) (playing : Bool) (ct : ℚ) : ℚ :=
  if playing = false then max nst (ct + safetyMarginSeconds)
  else if nst < ct then ct + safetyMarginSeconds
  else nst

/-- The audio branch of processMessageQueue: bump the chunk counter, pick
the start time, mark playing, set the status, register the new source in
the active set, and advance the playback clock by the chunk duration. -/
def scheduleAudioChunk (st : HookState) (ct d : ℚ) : HookState :=
  { st with
      audioChunkCounter := st.audioChunkCounter + 1,
      nextStartTime := nextChunkStart st.nextStartTime st.isAudioPlaying ct + d,
      isAudioPlaying := true,
      commentaryStatus := "Speaking",
      activeSources := st.activeSources ++ [st.audioChunkCounter + 1] }

/-- The transcript-append for a user-role text part. -/
def userEcho (st : HookState) (msg : Message) (now : Nat) : HookState :=
  match msg.modelTurnRole, msg.textPart with
  | some r, some t =>
      if r = "user" then
        { st with chatMessages := takeLastN 49 st.chatMessages ++ [⟨true, t, now⟩] }
      else st
  | _, _ => st

/-- The assistant-text branch of processMessageQueue: append to the
transcript, run the distance parser, then the voice-command check, where
the navigation-activation keywords are tested before the deactivation
keywords. -/
def aiTextStep (st : HookState) (t : String) (now : Nat) : HookState :=
  let stc := { st with chatMessages := takeLastN 49 st.chatMessages ++ [⟨false, t, now⟩] }
  let stp := parseDistanceAndSetUrgency stc t
  let lower := lowerL t.data
  if containsSubL ("navigation mode".data) lower ||
      containsSubL ("start navigation".data) lower ||
      containsSubL ("activate navigation".data) lower then
    { stp with isNavigationMode := true, commentaryStatus := "Navigation Mode" }
  else if containsSubL ("stop navigation".data) lower ||
      containsSubL ("exit navigation".data) lower ||
      containsSubL ("normal mode".data) lower then
    { stp with isNavigationMode := false, commentaryStatus := "Normal Mode" }
  else stp

/-- Processing of one already-dequeued message by processMessageQueue:
the interruption branch first (flush, clock reset, queue discard), then
the user-transcript echo, then, only while the output context is
running, the assistant-text branch and the audio branch. ct is the
output-clock reading, now the wall-clock timestamp in ms. -/
def processOneMessage (st : HookState) (msg : Message) (ctxRunning : Bool)
    (ct : ℚ) (now : Nat) : HookState :=
  let st1 :=
    if msg.interrupted then
      { stopAndClearAudio st with nextStartTime := ct, messageQueue := [] }
    else st
  let st2 := userEcho st1 msg now
  if ctxRunning then
    let st3 :=
      match msg.textPart with
      | some t => if msg.modelTurnRole = some "user" then st2 else aiTextStep st2 t now
      | none => st2
    match msg.audioDur with
    | some d => scheduleAudioChunk st3 ct d
    | none => st3
  else st2

/-- A pure audio message: no interruption, no text, a decoded chunk of
the given duration. -/
def audioMsg (d : ℚ) : Message :=
  { interrupted := false, modelTurnRole := none, textPart := none, audioDur := some d }

/-- An assistant text message carrying the given text. -/
def mkAiTextMsg (t : String) : Message :=
  { interrupted := false, modelTurnRole := some "model", textPart := some t, audioDur := none }

/-- Trace of scheduled start times over a run of audio messages without
interruption and without barge-in: each event is the output-clock
reading at processing time paired with the chunk duration. -/
def runStarts : HookState → List (ℚ × ℚ) → List ℚ
  | _, [] => []
  | st, (ct, d) :: rest =>
      nextChunkStart st.nextStartTime st.isAudioPlaying ct ::
        runStarts (processOneMessage st (audioMsg d) true ct 0) rest

/-- One invocation of sendFrame in startFrameStreaming. The result pair
is (frame sent, next capture scheduled). The guard at the top returns
before the closing setTimeout call, so the early-return path schedules
nothing; the send itself additionally needs the blob callback to produce
a blob and the live-session reference to still be set. -/
def sendFrame (videoWidth videoHeight : Nat) (ready blobOk sessionLive : Bool) :
    Bool × Bool :=
  if videoWidth = 0 || videoHeight = 0 || !ready then (false, false)
  else (blobOk && sessionLive && ready, true)

/-- getFrameInterval: in navigation mode the interval is recomputed from
the urgency level; outside navigation mode it is 1000 / FRAME_RATE. -/
def getFrameInterval (isNavigationMode : Bool) (u : Urgency) : ℚ :=
  if isNavigationMode = false then 1000 / FRAME_RATE
  else
    match u with
    | Urgency.critical => 500
    | Urgency.high => 1000
    | Urgency.medium => 1500
    | Urgency.low => 2000

/-- Truncation toward zero, the integer conversion JS applies when a
number is stored into an Int16Array slot. -/
def jsTrunc (q : ℚ) : Int := if q < 0 then -(Int.floor (-q)) else Int.floor q

/-- Wrap of an integer into the signed 16-bit range, the modular step of
the Int16Array element conversion. -/
def toInt16 (n : Int) : Int := (n + 32768) % 65536 - 32768

/-- One sample of float32ToInt16 before the Int16Array wrap: clamp to
the unit interval, then scale negatives by 0x8000 and nonnegatives by
0x7FFF. -/
def sampleToInt16 (x : ℚ) : Int :=
  let s := max (-1) (min 1 x)
  jsTrunc (if s < 0 then s * 32768 else s * 32767)

/-- float32ToInt16 of the audio worklet: elementwise conversion of the
captured float samples to 16-bit PCM, including the Int16Array wrap. -/
def float32ToInt16 (buf : List ℚ) : List Int :=
  buf.map (fun x => toInt16 (sampleToInt16 x))

/-- The hook state right after initLiveSession resets the refs. -/
def initState : HookState :=
  { nextStartTime := 0, isAudioPlaying := false, activeSources := [],
    messageQueue := [], lastUserSpeechTime := 0, isMicMuted := false,
    isNavigationMode := false, urgencyLevel := Urgency.low,
    detectedDistance := none, commentaryStatus := "Ready", chatMessages := [],
    isSessionReady := true, audioChunkCounter := 0 }

/-- Spec example text one. -/
def ex1str : String := "STOP. Wall half meter"

/-- Spec example text two. -/
def ex2str : String := "Clear path. Five meters"

/-- Spec example text three. -/
def ex3str : String := "Obstacle right. Four feet"

/-- A state in which AI audio is playing, used to instantiate theorems. -/
def playingState : HookState :=
  { initState with
      isAudioPlaying := true
      activeSources := [1]
      messageQueue := [audioMsg 1] }

/-- The distance parser never touches the playback state. -/
theorem parse_activeSources (st : HookState) (t : String) :
    (parseDistanceAndSetUrgency st t).activeSources = st.activeSources := by
  unfold parseDistanceAndSetUrgency
  dsimp only
  split <;> split <;> rfl

/-- The distance parser never touches the playing flag. -/
theorem parse_isAudioPlaying (st : HookState) (t : String) :
    (parseDistanceAndSetUrgency st t).isAudioPlaying = st.isAudioPlaying := by
  unfold parseDistanceAndSetUrgency
  dsimp only
  split <;> split <;> rfl

/-- The distance parser never touches the playback clock. -/
theorem parse_nextStartTime (st : HookState) (t : String) :
    (parseDistanceAndSetUrgency st t).nextStartTime = st.nextStartTime := by
  unfold parseDistanceAndSetUrgency
  dsimp only
  split <;> split <;> rfl

/-- The distance parser never touches the message queue. -/
theorem parse_messageQueue (st : HookState) (t : String) :
    (parseDistanceAndSetUrgency st t).messageQueue = st.messageQueue := by
  unfold parseDistanceAndSetUrgency
  dsimp only
  split <;> split <;> rfl

/-- The stored distance is exactly the parse of the lowercased text. -/
theorem parse_detectedDistance (st : HookState) (t : String) :
    (parseDistanceAndSetUrgency st t).detectedDistance =
      parsedDistance (lowerL t.data) := by
  unfold parseDistanceAndSetUrgency
  dsimp only
  split <;> split <;> rfl

/-- With the stop keyword present, the parser forces critical urgency. -/
theorem parse_urgency_stop (st : HookState) (t : String)
    (h : hasStopWord (lowerL t.data) = true) :
    (parseDistanceAndSetUrgency st t).urgencyLevel = Urgency.critical := by
  unfold parseDistanceAndSetUrgency
  dsimp only
  rw [h]
  split
  · rfl
  · rename_i hh
    exact absurd rfl hh

/-- Without the stop keyword, urgency is the threshold classification of
the parsed distance, or unchanged when no distance parsed. -/
theorem parse_urgency_no_stop (st : HookState) (t : String)
    (h : hasStopWord (lowerL t.data) = false) :
    (parseDistanceAndSetUrgency st t).urgencyLevel =
      (match parsedDistance (lowerL t.data) with
       | some d => urgencyForDistance d
       | none => st.urgencyLevel) := by
  unfold parseDistanceAndSetUrgency
  dsimp only
  rw [h]
  split
  · rename_i hh
    exact Bool.noConfusion hh
  · split <;> rfl


/-- The user-transcript echo only touches the transcript. -/
theorem userEcho_fields (st : HookState) (msg : Message) (now : Nat) :
    (userEcho st msg now).activeSources = st.activeSources ∧
    (userEcho st msg now).isAudioPlaying = st.isAudioPlaying ∧
    (userEcho st msg now).nextStartTime = st.nextStartTime ∧
    (userEcho st msg now).messageQueue = st.messageQueue := by
  unfold userEcho
  split
  · split <;> exact ⟨rfl, rfl, rfl, rfl⟩
  · exact ⟨rfl, rfl, rfl, rfl⟩

/-- The assistant-text branch only touches the transcript, the distance,
the urgency, the navigation flag and the status text. -/
theorem aiTextStep_fields (st : HookState) (t : String) (now : Nat) :
    (aiTextStep st t now).activeSources = st.activeSources ∧
    (aiTextStep st t now).isAudioPlaying = st.isAudioPlaying ∧
    (aiTextStep st t now).nextStartTime = st.nextStartTime ∧
    (aiTextStep st t now).messageQueue = st.messageQueue := by
  unfold aiTextStep
  dsimp only
  have h1 := parse_activeSources
    { st with chatMessages := takeLastN 49 st.chatMessages ++ [⟨false, t, now⟩] } t
  have h2 := parse_isAudioPlaying
    { st with chatMessages := takeLastN 49 st.chatMessages ++ [⟨false, t, now⟩] } t
  have h3 := parse_nextStartTime
    { st with chatMessages := takeLastN 49 st.chatMessages ++ [⟨false, t, now⟩] } t
  have h4 := parse_messageQueue
    { st with chatMessages := takeLastN 49 st.chatMessages ++ [⟨false, t, now⟩] } t
  split
  · exact ⟨h1, h2, h3, h4⟩
  · split
    · exact ⟨h1, h2, h3, h4⟩
    · exact ⟨h1, h2, h3, h4⟩

/-- Urgency after the assistant-text branch is the urgency set by the
distance parser; the voice-command branches never change it. -/
theorem aiTextStep_urgency (st : HookState) (t : String) (now : Nat) :
    (aiTextStep st t now).urgencyLevel =
      (parseDistanceAndSetUrgency
        { st with chatMessages := takeLastN 49 st.chatMessages ++ [⟨false, t, now⟩] }
        t).urgencyLevel := by
  unfold aiTextStep
  dsimp only
  split
  · rfl
  · split
    · rfl
    · rfl

/-- Matching a longer token at the head also matches its first part. -/
theorem startsWithL_of_append (a b s : List Char)
    (h : startsWithL (a ++ b) s = true) : startsWithL a s = true := by
  induction a generalizing s with
  | nil => rfl
  | cons c cs ih =>
    cases s with
    | nil => exact Bool.noConfusion h
    | cons d ds =>
      simp only [List.cons_append, startsWithL, Bool.and_eq_true] at h ⊢
      exact ⟨h.1, ih ds h.2⟩

/-- A text containing a longer token also contains its first part. -/
theorem containsSubL_of_append (a b s : List Char)
    (h : containsSubL (a ++ b) s = true) : containsSubL a s = true := by
  induction s with
  | nil =>
    cases a with
    | nil => rfl
    | cons c cs => exact Bool.noConfusion h
  | cons c rest ih =>
    simp only [containsSubL, Bool.or_eq_true] at h ⊢
    rcases h with h | h
    · exact Or.inl (startsWithL_of_append a b _ h)
    · exact Or.inr (ih h)

/-- The three-branch start-time computation never moves the playback
clock backward. -/
theorem nextChunkStart_ge (nst : ℚ) (p : Bool) (ct : ℚ) :
    nst ≤ nextChunkStart nst p ct := by
  unfold nextChunkStart
  by_cases hp : p = false
  · rw [if_pos hp]
    exact le_max_left _ _
  · rw [if_neg hp]
    by_cases hlt : nst < ct
    · rw [if_pos hlt]
      have hm : (0 : ℚ) < safetyMarginSeconds := by
        norm_num [safetyMarginSeconds, AUDIO_BUFFER_GAP_MS]
      linarith
    · rw [if_neg hlt]

/-- Processing a pure audio message is exactly the audio branch. -/
theorem processOne_audio (st : HookState) (ct d : ℚ) (n : Nat) :
    processOneMessage st (audioMsg d) true ct n = scheduleAudioChunk st ct d := rfl

/-- Processing an assistant text message is exactly the text branch. -/
theorem processOne_aiText (st : HookState) (t : String) (ct : ℚ) (n : Nat) :
    processOneMessage st (mkAiTextMsg t) true ct n = aiTextStep st t n := rfl

/-- The wrap into the signed 16-bit range is the identity on values that
are already in range. -/
theorem toInt16_id (n : Int) (h1 : -32768 ≤ n) (h2 : n ≤ 32767) : toInt16 n = n := by
  unfold toInt16
  have h3 : 0 ≤ n + 32768 := by linarith
  have h4 : n + 32768 < 65536 := by linarith
  rw [Int.emod_eq_of_lt h3 h4]
  ring

/-- Every converted sample lies in the signed 16-bit range before the
wrap is even applied. -/
theorem sampleToInt16_range (x : ℚ) :
    -32768 ≤ sampleToInt16 x ∧ sampleToInt16 x ≤ 32767 := by
  unfold sampleToInt16 jsTrunc
  dsimp only
  have h1 : (-1 : ℚ) ≤ max (-1) (min 1 x) := le_max_left _ _
  have h2 : max (-1) (min 1 x) ≤ 1 := max_le (by norm_num) (min_le_left _ _)
  set s := max (-1) (min 1 x) with hs
  by_cases hneg : s < 0
  · rw [if_pos hneg]
    have hq : s * 32768 < 0 := mul_neg_of_neg_of_pos hneg (by norm_num)
    rw [if_pos hq]
    have hub : -(s * 32768) ≤ (32768 : ℚ) := by nlinarith
    have hfl : Int.floor (-(s * 32768)) ≤ (32768 : ℤ) := by
      calc Int.floor (-(s * 32768)) ≤ Int.floor ((32768 : ℚ)) := Int.floor_le_floor hub
        _ = 32768 := by norm_num
    have hf0 : (0 : ℤ) ≤ Int.floor (-(s * 32768)) :=
      Int.floor_nonneg.mpr (by linarith)
    constructor <;> linarith
  · rw [if_neg hneg]
    push_neg at hneg
    have hq : 0 ≤ s * 32767 := mul_nonneg hneg (by norm_num)
    rw [if_neg (not_lt.mpr hq)]
    have hub : s * 32767 ≤ (32767 : ℚ) := by nlinarith
    have hfl : Int.floor (s * 32767) ≤ (32767 : ℤ) := by
      calc Int.floor (s * 32767) ≤ Int.floor ((32767 : ℚ)) := Int.floor_le_floor hub
        _ = 32767 := by norm_num
    have hf0 : (0 : ℤ) ≤ Int.floor (s * 32767) := Int.floor_nonneg.mpr hq
    constructor <;> linarith

/-- C7: getFrameInterval returns 500, 1000, 1500 and 2000 ms for the four
urgency levels in navigation mode, and the single constant 1000 over
FRAME_RATE = 2000 ms in default mode regardless of urgency. -/
theorem c7_frame_interval_selection :
    getFrameInterval true Urgency.critical = 500 ∧
    getFrameInterval true Urgency.high = 1000 ∧
    getFrameInterval true Urgency.medium = 1500 ∧
    getFrameInterval true Urgency.low = 2000 ∧
    (∀ u : Urgency, getFrameInterval false u = 1000 / FRAME_RATE) ∧
    (∀ u : Urgency, getFrameInterval false u = 2000) := by
  refine ⟨rfl, rfl, rfl, rfl, ?_, ?_⟩
  · intro u
    cases u <;> rfl
  · intro u
    cases u <;> norm_num [getFrameInterval, FRAME_RATE]

/-- C9: stopAndClearAudio is idempotent; invoked with an empty in-flight
source set it is total (the embedding is a total function), leaves the
playing flag false and the source set empty, changes no other field, and
is the identity when the playing flag is already down. -/
theorem c9_flush_idempotent (st : HookState) (h : st.activeSources = []) :
    stopAndClearAudio (stopAndClearAudio st) = stopAndClearAudio st ∧
    (stopAndClearAudio st).isAudioPlaying = false ∧
    (stopAndClearAudio st).activeSources = [] ∧
    (stopAndClearAudio st).nextStartTime = st.nextStartTime ∧
    (stopAndClearAudio st).messageQueue = st.messageQueue ∧
    (stopAndClearAudio st).lastUserSpeechTime = st.lastUserSpeechTime ∧
    (stopAndClearAudio st).isMicMuted = st.isMicMuted ∧
    (stopAndClearAudio st).isNavigationMode = st.isNavigationMode ∧
    (stopAndClearAudio st).urgencyLevel = st.urgencyLevel ∧
    (stopAndClearAudio st).detectedDistance = st.detectedDistance ∧
    (stopAndClearAudio st).commentaryStatus = st.commentaryStatus ∧
    (stopAndClearAudio st).chatMessages = st.chatMessages ∧
    (stopAndClearAudio st).isSessionReady = st.isSessionReady ∧
    (stopAndClearAudio st).audioChunkCounter = st.audioChunkCounter ∧
    (st.isAudioPlaying = false → stopAndClearAudio st = st) := by
  refine ⟨rfl, rfl, rfl, rfl, rfl, rfl, rfl, rfl, rfl, rfl, rfl, rfl, rfl, rfl, ?_⟩
  intro hp
  cases st
  simp only [stopAndClearAudio] at *
  simp_all

/-- Witness for C9 at a concrete state with no in-flight sources. -/
theorem c9_witness :
    initState.activeSources = [] ∧
    ((stopAndClearAudio initState).isAudioPlaying = false ∧
      stopAndClearAudio initState = initState) :=
  ⟨rfl, (c9_flush_idempotent initState rfl).2.1,
    (c9_flush_idempotent initState rfl).2.2.2.2.2.2.2.2.2.2.2.2.2.2 rfl⟩

/-- C6: evaluation of sendFrame at capture attempts made with invalid
video dimensions or a not-ready session: the frame is not sent, and, in
divergence from the claim, no subsequent capture is scheduled either
(the early return precedes the setTimeout chain call, terminating the
capture loop). -/
theorem c6_skipped_capture_not_rescheduled :
    sendFrame 0 480 true true true = (false, false) ∧
    sendFrame 640 0 true true true = (false, false) ∧
    sendFrame 640 480 false true true = (false, false) ∧
    sendFrame 640 480 true true true = (true, true) := by
  decide

/-- C8: float32ToInt16 output always lies in the signed 16-bit range,
exact plus one maps to 32767 and exact minus one maps to -32768, and the
Int16Array wrap never fires (no overflow), for any input samples
including ones outside the unit interval. -/
theorem c8_pcm_no_overflow :
    (∀ (buf : List ℚ) (y : Int), y ∈ float32ToInt16 buf →
        -32768 ≤ y ∧ y ≤ 32767) ∧
    float32ToInt16 [1] = [32767] ∧
    float32ToInt16 [-1] = [-32768] ∧
    (∀ x : ℚ, toInt16 (sampleToInt16 x) = sampleToInt16 x) := by
  have hid : ∀ x : ℚ, toInt16 (sampleToInt16 x) = sampleToInt16 x := fun x =>
    toInt16_id _ (sampleToInt16_range x).1 (sampleToInt16_range x).2
  have hpos : sampleToInt16 1 = 32767 := by
    unfold sampleToInt16 jsTrunc
    norm_num
  have hneg : sampleToInt16 (-1) = -32768 := by
    unfold sampleToInt16 jsTrunc
    norm_num
  refine ⟨?_, ?_, ?_, hid⟩
  · intro buf y hy
    simp only [float32ToInt16, List.mem_map] at hy
    obtain ⟨x, -, rfl⟩ := hy
    rw [hid x]
    exact sampleToInt16_range x
  · show [toInt16 (sampleToInt16 1)] = [32767]
    rw [hid, hpos]
  · show [toInt16 (sampleToInt16 (-1))] = [-32768]
    rw [hid, hneg]

/-- Witness for C8 on a sample outside the unit interval. -/
theorem c8_witness :
    (32767 : Int) ∈ float32ToInt16 [2] ∧
    (-32768 ≤ (32767 : Int) ∧ (32767 : Int) ≤ 32767) := by
  have hmem : (32767 : Int) ∈ float32ToInt16 [2] := by
    have h2 : sampleToInt16 2 = 32767 := by
      unfold sampleToInt16 jsTrunc
      norm_num
    have : float32ToInt16 [2] = [32767] := by
      show [toInt16 (sampleToInt16 2)] = [32767]
      rw [h2, toInt16_id] <;> norm_num
    rw [this]
    exact List.mem_singleton.mpr rfl
  exact ⟨hmem, c8_pcm_no_overflow.1 [2] 32767 hmem⟩

/-- C2: whenever a microphone frame has RMS energy above the threshold
while AI audio is playing, the cooldown window has elapsed and the
microphone is not muted, detectUserSpeech leaves no scheduled audio
source, an empty message queue and the playback clock equal to the
current output-clock time; and a frame arriving within the cooldown
window of the previous trigger changes nothing at all. -/
theorem c2_barge_in (st : HookState) (frame : List Int) (now : Nat) (ct : ℚ) :
    ((rmsSq frame > SPEECH_ENERGY_THRESHOLD ^ 2 ∧ st.isAudioPlaying = true ∧
        now - st.lastUserSpeechTime > SPEECH_COOLDOWN_MS ∧ st.isMicMuted = false) →
      (detectUserSpeech st frame now ct).activeSources = [] ∧
      (detectUserSpeech st frame now ct).messageQueue = [] ∧
      (detectUserSpeech st frame now ct).nextStartTime = ct ∧
      (detectUserSpeech st frame now ct).isAudioPlaying = false) ∧
    (now - st.lastUserSpeechTime ≤ SPEECH_COOLDOWN_MS →
      detectUserSpeech st frame now ct = st) := by
  constructor
  · intro h
    unfold detectUserSpeech
    rw [if_pos h]
    exact ⟨rfl, rfl, rfl, rfl⟩
  · intro h
    unfold detectUserSpeech
    rw [if_neg]
    intro hc
    exact absurd hc.2.2.1 (not_lt.mpr h)

/-- Witness for C2: a loud frame triggers the flush from a playing state
past the cooldown, and a frame inside the cooldown window is a no-op. -/
theorem c2_witness :
    ((detectUserSpeech playingState [16384] 2000 7).activeSources = [] ∧
      (detectUserSpeech playingState [16384] 2000 7).messageQueue = [] ∧
      (detectUserSpeech playingState [16384] 2000 7).nextStartTime = 7 ∧
      (detectUserSpeech playingState [16384] 2000 7).isAudioPlaying = false) ∧
    detectUserSpeech playingState [16384] 500 7 = playingState := by
  constructor
  · exact (c2_barge_in playingState [16384] 2000 7).1
      ⟨by norm_num [rmsSq, SPEECH_ENERGY_THRESHOLD], rfl, by decide, rfl⟩
  · exact (c2_barge_in playingState [16384] 500 7).2 (by decide)

/-- C5: a message carrying the interrupted flag (and no audio payload of
its own) leaves, after processing, no in-flight scheduled source, a
stopped playing flag, the playback clock reset to the current
output-clock time, and an empty message queue, whatever else the message
carries and whether or not the output context is running. -/
theorem c5_interruption (st : HookState) (msg : Message) (ctxRunning : Bool)
    (ct : ℚ) (now : Nat) (hi : msg.interrupted = true) (ha : msg.audioDur = none) :
    (processOneMessage st msg ctxRunning ct now).activeSources = [] ∧
    (processOneMessage st msg ctxRunning ct now).isAudioPlaying = false ∧
    (processOneMessage st msg ctxRunning ct now).nextStartTime = ct ∧
    (processOneMessage st msg ctxRunning ct now).messageQueue = [] := by
  unfold processOneMessage
  rw [hi]
  simp only [if_true]
  set st1 : HookState :=
    { stopAndClearAudio st with nextStartTime := ct, messageQueue := [] } with hst1
  have hu := userEcho_fields st1 msg now
  by_cases hc : ctxRunning = true
  · rw [if_pos hc, ha]
    dsimp only
    cases htp : msg.textPart with
    | none =>
      simp only [htp]
      exact ⟨hu.1, hu.2.1, hu.2.2.1, hu.2.2.2⟩
    | some t =>
      simp only [htp]
      by_cases hr : msg.modelTurnRole = some "user"
      · rw [if_pos hr]
        exact ⟨hu.1, hu.2.1, hu.2.2.1, hu.2.2.2⟩
      · rw [if_neg hr]
        have hai := aiTextStep_fields (userEcho st1 msg now) t now
        exact ⟨hai.1.trans hu.1, (hai.2.1).trans hu.2.1,
          (hai.2.2.1).trans hu.2.2.1, (hai.2.2.2).trans hu.2.2.2⟩
  · rw [if_neg hc]
    exact ⟨hu.1, hu.2.1, hu.2.2.1, hu.2.2.2⟩

/-- Witness for C5 on a concrete interrupted message arriving while two
chunks are in flight and a message is still queued. -/
theorem c5_witness :
    (processOneMessage
      { playingState with activeSources := [1, 2], nextStartTime := 9 }
      { interrupted := true, modelTurnRole := none, textPart := none, audioDur := none }
      true 3 0).activeSources = [] ∧
    (processOneMessage
      { playingState with activeSources := [1, 2], nextStartTime := 9 }
      { interrupted := true, modelTurnRole := none, textPart := none, audioDur := none }
      true 3 0).isAudioPlaying = false ∧
    (processOneMessage
      { playingState with activeSources := [1, 2], nextStartTime := 9 }
      { interrupted := true, modelTurnRole := none, textPart := none, audioDur := none }
      true 3 0).nextStartTime = 3 ∧
    (processOneMessage
      { playingState with activeSources := [1, 2], nextStartTime := 9 }
      { interrupted := true, modelTurnRole := none, textPart := none, audioDur := none }
      true 3 0).messageQueue = [] :=
  c5_interruption
    { playingState with activeSources := [1, 2], nextStartTime := 9 }
    { interrupted := true, modelTurnRole := none, textPart := none, audioDur := none }
    true 3 0 rfl rfl

/-- C3: the distance parser uses a leading numeric value followed by a
unit token, with a found meter value taken as is, a found feet value
multiplied by 0.3048, the literal half-meter phrase overriding any
numeric match with exactly one half; the urgency thresholds on the
resulting distance are under 1 critical, under 2 high, under 3 medium,
otherwise low; and any occurrence of the keyword stop forces critical
urgency regardless of any parsed distance. -/
theorem c3_distance_algorithm (st : HookState) (text : String) :
    (∀ v, findUnitNumber unitMeterTok (lowerL text.data) = some v →
        hasHalfPhrase (lowerL text.data) = false →
        (parseDistanceAndSetUrgency st text).detectedDistance = some v) ∧
    (∀ v, findUnitNumber unitMeterTok (lowerL text.data) = none →
        findUnitNumber unitFeetTok (lowerL text.data) = some v →
        hasHalfPhrase (lowerL text.data) = false →
        (parseDistanceAndSetUrgency st text).detectedDistance =
          some (v * (3048 / 10000))) ∧
    (hasHalfPhrase (lowerL text.data) = true →
        (parseDistanceAndSetUrgency st text).detectedDistance = some (1 / 2)) ∧
    (∀ d, (parseDistanceAndSetUrgency st text).detectedDistance = some d →
        hasStopWord (lowerL text.data) = false →
        ((d < 1 → (parseDistanceAndSetUrgency st text).urgencyLevel = Urgency.critical) ∧
         (1 ≤ d → d < 2 →
            (parseDistanceAndSetUrgency st text).urgencyLevel = Urgency.high) ∧
         (2 ≤ d → d < 3 →
            (parseDistanceAndSetUrgency st text).urgencyLevel = Urgency.medium) ∧
         (3 ≤ d → (parseDistanceAndSetUrgency st text).urgencyLevel = Urgency.low))) ∧
    (hasStopWord (lowerL text.data) = true →
        (parseDistanceAndSetUrgency st text).urgencyLevel = Urgency.critical) := by
  refine ⟨?_, ?_, ?_, ?_, parse_urgency_stop st text⟩
  · intro v hm hh
    rw [parse_detectedDistance]
    unfold parsedDistance
    dsimp only
    rw [hm, hh]
    simp
  · intro v hm hf hh
    rw [parse_detectedDistance]
    unfold parsedDistance
    dsimp only
    rw [hm, hf, hh]
    simp
  · intro hh
    rw [parse_detectedDistance]
    unfold parsedDistance
    dsimp only
    rw [hh]
    simp
  · intro d hd hns
    rw [parse_detectedDistance] at hd
    have hu := parse_urgency_no_stop st text hns
    rw [hd] at hu
    dsimp only at hu
    rw [hu]
    unfold urgencyForDistance
    refine ⟨?_, ?_, ?_, ?_⟩
    · intro h1
      rw [if_pos h1]
    · intro h1 h2
      rw [if_neg (not_lt.mpr h1), if_pos h2]
    · intro h1 h2
      rw [if_neg (by linarith : ¬ d < 1), if_neg (not_lt.mpr h1), if_pos h2]
    · intro h1
      rw [if_neg (by linarith : ¬ d < 1), if_neg (by linarith : ¬ d < 2),
        if_neg (not_lt.mpr h1)]

/-- Witness for C3 on a feet-unit text with a digit: distance is the
0.3048 conversion of four feet and the urgency classifies as high. -/
theorem c3_witness :
    (parseDistanceAndSetUrgency initState "4 ft").detectedDistance =
      some (4 * (3048 / 10000)) ∧
    (parseDistanceAndSetUrgency initState "4 ft").urgencyLevel = Urgency.high := by
  have hm : findUnitNumber unitMeterTok (lowerL ("4 ft").data) = none := by decide
  have hf : findUnitNumber unitFeetTok (lowerL ("4 ft").data) = some 4 := by decide
  have hh : hasHalfPhrase (lowerL ("4 ft").data) = false := by decide
  have hns : hasStopWord (lowerL ("4 ft").data) = false := by decide
  have hd := (c3_distance_algorithm initState "4 ft").2.1 4 hm hf hh
  refine ⟨hd, ?_⟩
  exact (((c3_distance_algorithm initState "4 ft").2.2.2.1 (4 * (3048 / 10000)) hd
    hns).2.1 (by norm_num) (by norm_num))

/-- Counterexample to C4: on the spec example text two the parser finds
no numeric match, because the number five is spelled out and the regex
group requires digits; the detected distance is not 5.0. -/
theorem c4_counterexample :
    ¬ ((parseDistanceAndSetUrgency initState ex2str).detectedDistance =
        some 5) := by
  have h : (parseDistanceAndSetUrgency initState ex2str).detectedDistance = none := by
    rw [parse_detectedDistance]
    decide
  rw [h]
  exact fun hc => Option.noConfusion hc

/-- C4 amended: example one behaves as claimed, urgency critical with
distance one half; examples two and three contain no digits, so the
parser stores no distance at all and leaves the urgency unchanged,
instead of the claimed 5.0:low and 1.22:high. -/
theorem c4_examples_amended (st : HookState) :
    (parseDistanceAndSetUrgency st ex1str).urgencyLevel = Urgency.critical ∧
    (parseDistanceAndSetUrgency st ex1str).detectedDistance = some (1 / 2) ∧
    (parseDistanceAndSetUrgency st ex2str).detectedDistance = none ∧
    (parseDistanceAndSetUrgency st ex2str).urgencyLevel = st.urgencyLevel ∧
    (parseDistanceAndSetUrgency st ex3str).detectedDistance = none ∧
    (parseDistanceAndSetUrgency st ex3str).urgencyLevel = st.urgencyLevel := by
  have h2 : parsedDistance (lowerL ex2str.data) = none := by decide
  have h3 : parsedDistance (lowerL ex3str.data) = none := by decide
  have hs2 : hasStopWord (lowerL ex2str.data) = false := by decide
  have hs3 : hasStopWord (lowerL ex3str.data) = false := by decide
  refine ⟨?_, ?_, ?_, ?_, ?_, ?_⟩
  · exact parse_urgency_stop st ex1str (by decide)
  · rw [parse_detectedDistance]
    rfl
  · rw [parse_detectedDistance]
    exact h2
  · rw [parse_urgency_no_stop st ex2str hs2, h2]
  · rw [parse_detectedDistance]
    exact h3
  · rw [parse_urgency_no_stop st ex3str hs3, h3]

/-- Counterexample to C10: the assistant text stop navigation mode does
contain the phrase stop navigation, yet processing it does not
deactivate navigation mode — the activation keyword navigation mode is
tested first, so the mode flag ends up true. -/
theorem c10_counterexample :
    ¬ ((processOneMessage initState (mkAiTextMsg "stop navigation mode")
        true 0 0).isNavigationMode = false) := by
  have h : (processOneMessage initState (mkAiTextMsg "stop navigation mode")
      true 0 0).isNavigationMode = true := by
    rw [processOne_aiText]
    unfold aiTextStep
    dsimp only
    rw [if_pos (by decide)]
  rw [h]
  exact fun hc => Bool.noConfusion hc

/-- C10 amended: an assistant text containing the phrase stop navigation
and none of the activation keywords (navigation mode, start navigation,
activate navigation) deactivates navigation mode, and — because the
phrase contains the substring stop — forces critical urgency even
though the text names no hazard. -/
theorem c10_stop_navigation (st : HookState) (t : String) (ct : ℚ) (now : Nat)
    (h1 : containsSubL ("stop navigation".data) (lowerL t.data) = true)
    (h2 : containsSubL ("navigation mode".data) (lowerL t.data) = false)
    (h3 : containsSubL ("start navigation".data) (lowerL t.data) = false)
    (h4 : containsSubL ("activate navigation".data) (lowerL t.data) = false) :
    (processOneMessage st (mkAiTextMsg t) true ct now).isNavigationMode = false ∧
    (processOneMessage st (mkAiTextMsg t) true ct now).urgencyLevel =
      Urgency.critical := by
  have hstop : hasStopWord (lowerL t.data) = true := by
    unfold hasStopWord
    have happ : ("stop".data) ++ (" navigation".data) = ("stop navigation".data) := by
      decide
    exact containsSubL_of_append _ _ _ (happ ▸ h1)
  rw [processOne_aiText]
  unfold aiTextStep
  dsimp only
  rw [h1, h2, h3, h4]
  rw [if_neg (by simp), if_pos (by simp)]
  refine ⟨rfl, ?_⟩
  show (parseDistanceAndSetUrgency _ t).urgencyLevel = Urgency.critical
  exact parse_urgency_stop _ t hstop

/-- Witness for C10 amended, on the plain phrase stop navigation. -/
theorem c10_witness :
    (processOneMessage initState (mkAiTextMsg "stop navigation")
      true 0 0).isNavigationMode = false ∧
    (processOneMessage initState (mkAiTextMsg "stop navigation")
      true 0 0).urgencyLevel = Urgency.critical :=
  c10_stop_navigation initState "stop navigation" 0 0
    (by decide) (by decide) (by decide) (by decide)

/-- C1: over any run of inbound audio messages processed without an
interruption signal and without barge-in, consecutive scheduled start
times satisfy the chain inequality — each chunk starts no earlier than
the start of the previous chunk plus the duration of that chunk — in all
three scheduling branches; and, for nonnegative chunk durations,
processing an audio message never moves the playback clock backward. -/
theorem c1_start_times_chain :
    (∀ (st : HookState) (events : List (ℚ × ℚ)),
        List.Chain' (fun a b => a.1 + a.2.2 ≤ b.1)
          ((runStarts st events).zip events)) ∧
    (∀ (st : HookState) (ct d : ℚ), 0 ≤ d →
        st.nextStartTime ≤
          (processOneMessage st (audioMsg d) true ct 0).nextStartTime) := by
  have hnst : ∀ (st : HookState) (ct d : ℚ),
      (processOneMessage st (audioMsg d) true ct 0).nextStartTime =
        nextChunkStart st.nextStartTime st.isAudioPlaying ct + d := fun _ _ _ => rfl
  have hplay : ∀ (st : HookState) (ct d : ℚ),
      (processOneMessage st (audioMsg d) true ct 0).isAudioPlaying = true :=
    fun _ _ _ => rfl
  constructor
  · intro st events
    induction events generalizing st with
    | nil => simp [runStarts]
    | cons e rest ih =>
      obtain ⟨ct, d⟩ := e
      cases rest with
      | nil => simp [runStarts]
      | cons e2 rest2 =>
        obtain ⟨ct2, d2⟩ := e2
        have hs : runStarts st ((ct, d) :: (ct2, d2) :: rest2) =
            nextChunkStart st.nextStartTime st.isAudioPlaying ct ::
              runStarts (processOneMessage st (audioMsg d) true ct 0)
                ((ct2, d2) :: rest2) := rfl
        have hs2 : runStarts (processOneMessage st (audioMsg d) true ct 0)
              ((ct2, d2) :: rest2) =
            nextChunkStart
                (processOneMessage st (audioMsg d) true ct 0).nextStartTime
                (processOneMessage st (audioMsg d) true ct 0).isAudioPlaying ct2 ::
              runStarts (processOneMessage
                (processOneMessage st (audioMsg d) true ct 0) (audioMsg d2) true ct2 0)
                rest2 := rfl
        rw [hs, hs2, List.zip_cons_cons, List.zip_cons_cons, List.chain'_cons]
        constructor
        · have hge := nextChunkStart_ge
            (processOneMessage st (audioMsg d) true ct 0).nextStartTime
            (processOneMessage st (audioMsg d) true ct 0).isAudioPlaying ct2
          rw [hnst st ct d] at hge
          exact hge
        · have htail := ih (processOneMessage st (audioMsg d) true ct 0)
          rw [hs2, List.zip_cons_cons] at htail
          exact htail
  · intro st ct d hd
    rw [hnst st ct d]
    have := nextChunkStart_ge st.nextStartTime st.isAudioPlaying ct
    linarith

/-- Witness for C1 at a concrete state and chunk. -/
theorem c1_witness :
    (0 : ℚ) ≤ 2 ∧
    initState.nextStartTime ≤
      (processOneMessage initState (audioMsg 2) true 5 0).nextStartTime :=
  ⟨by norm_num, c1_start_times_chain.2 initState 5 2 (by norm_num)⟩
